import Mathlib

/-!
Verification of the deployment orchestrator in
`application-code/ecsdemo-cicd/.dagger/src/ecsdemo_cicd/main.py`.

The Python `EcsdemoCicd.deploy` method pushes a container image, then talks to
the ECS API through a boto3 client: `list_task_definitions` (family prefix,
descending, one result), `describe_task_definition`, an in-place rewrite of the
`image` field of each container definition that has one,
`register_task_definition`, and `update_service`.

The embedding represents the ECS client as an abstract, stateful collaborator
(`EcsClient`): each operation consumes a state and returns a fallible response
together with the next state.  `deploy` is the direct translation of the Python
control flow; besides its result it returns the list of ECS API calls it
issued, in order, so that claims about which calls are or are not made can be
stated.  The outcome of the dagger `push` step and of the three secret
plaintext resolutions are passed in as `Except` values, since those
collaborators are external to the deployment logic.
-/

/-- A volume entry of a task definition body: an opaque record of attributes
(the Python code never inspects volumes, it only forwards them). -/
abbrev Volume := List (String × String)

/-- One container definition of a task definition body.  In the Python source a
container definition is a dict; the only key the code inspects is `image`
(`if 'image' in ctr: ctr['image'] = image`), so the embedding keeps the
optional `image` field and an opaque record `rest` of every other field. -/
structure ContainerDef where
  image : Option String
  rest : List (String × String)
  deriving Repr, DecidableEq

/-- The task definition body returned by `describe_task_definition`, restricted
to the fields the Python code reads.  `family` and `containerDefinitions` are
accessed with `[]` (always present); the remaining fields are read with
`.get`, so they are optional here. -/
structure TaskDefinition where
  family : String
  containerDefinitions : List ContainerDef
  volumes : Option (List Volume) := none
  taskRoleArn : Option String := none
  executionRoleArn : Option String := none
  networkMode : Option String := none
  requiresCompatibilities : Option (List String) := none
  cpu : Option String := none
  memory : Option String := none
  deriving Repr, DecidableEq

/-- The keyword arguments the Python code passes to `register_task_definition`. -/
structure RegisterParams where
  family : String
  containerDefinitions : List ContainerDef
  volumes : List Volume
  taskRoleArn : Option String
  executionRoleArn : Option String
  networkMode : Option String
  requiresCompatibilities : List String
  cpu : Option String
  memory : Option String
  deriving Repr, DecidableEq

/-- `if 'image' in ctr: ctr['image'] = image` for a single container definition. -/
def setImage (image : String) (ctr : ContainerDef) : ContainerDef :=
  if (ctr.image).isSome then { ctr with image := some image } else ctr

/-- The loop `for ctr in task_definition['containerDefinitions']: ...` that
overwrites the image of every container definition that has one. -/
def updateImages (image : String) (defs : List ContainerDef) : List ContainerDef :=
  defs.map (setImage image)

/-- The argument record of the `register_task_definition` call built in
`deploy`: the (image-rewritten) container definitions together with the other
fields of the fetched body, absent optional fields defaulting as in the
Python `.get` calls. -/
def deriveRegisterParams (image : String) (td : TaskDefinition) : RegisterParams :=
  { family := td.family
    containerDefinitions := updateImages image td.containerDefinitions
    volumes := td.volumes.getD []
    taskRoleArn := td.taskRoleArn
    executionRoleArn := td.executionRoleArn
    networkMode := td.networkMode
    requiresCompatibilities := td.requiresCompatibilities.getD []
    cpu := td.cpu
    memory := td.memory }

/-- One ECS API call, as issued by `deploy` (arguments as sent on the wire). -/
inductive EcsCall where
  | list_task_definitions (familyPfx : String) (sort : String) (maxResults : Nat)
  | describe_task_definition (taskDefinition : String)
  | register_task_definition (p : RegisterParams)
  | update_service (cluster : String) (service : String) (taskDefinition : String)
  deriving Repr, DecidableEq

/-- The ECS collaborator: each operation is stateful (state type `σ`) and
fallible.  `list_task_definitions` answers with a list of task definition
ARNs, `describe_task_definition` with a task definition body,
`register_task_definition` with the new revision's ARN. -/
structure EcsClient (σ : Type) where
  list_task_definitions : String → String → Nat → σ → Except String (List String) × σ
  describe_task_definition : String → σ → Except String TaskDefinition × σ
  register_task_definition : RegisterParams → σ → Except String String × σ
  update_service : String → String → String → σ → Except String Unit × σ

/-- The error `deploy` raises, tagged with the step that failed; each
constructor carries the underlying message (the Python code re-raises the
original exception after logging it). -/
inductive DeployError where
  | pushFailed (msg : String)
  | credentialFailed (msg : String)
  | familyNotFound (family : String)
  | listFailed (msg : String)
  | describeFailed (msg : String)
  | registerFailed (msg : String)
  | updateFailed (msg : String)
  deriving Repr, DecidableEq

/-- `EcsdemoCicd.deploy`.  `push_result` is the outcome of
`await self.push(dir)`; `access_key`, `secret_key`, `session_token` are the
outcomes of the three `plaintext()` resolutions awaited while constructing the
boto3 client.  The function returns the deploy result, the ordered list of ECS
API calls issued, and the final collaborator state.  The caller-supplied
`image` argument is rebound to the push result on the first line of the Python
body (`image = await self.push(dir)`), so the parameter is never read. -/
def deploy {σ : Type} (client : EcsClient σ)
    (push_result : Except String String)
    (access_key : Except String String)
    (secret_key : Except String String)
    (session_token : Except String String)
    (cluster : String) (region : String) (service : String)
    (task_definition_family : String) (image : Option String) (s : σ) :
    Except DeployError String × List EcsCall × σ :=
  match push_result with
  | .error e => (.error (.pushFailed e), [], s)
  | .ok pushed =>
    match access_key with
    | .error e => (.error (.credentialFailed e), [], s)
    | .ok _ =>
      match secret_key with
      | .error e => (.error (.credentialFailed e), [], s)
      | .ok _ =>
        match session_token with
        | .error e => (.error (.credentialFailed e), [], s)
        | .ok _ =>
          let c1 : EcsCall := .list_task_definitions task_definition_family "DESC" 1
          match client.list_task_definitions task_definition_family "DESC" 1 s with
          | (.error e, s1) => (.error (.listFailed e), [c1], s1)
          | (.ok arns, s1) =>
            match arns with
            | [] => (.error (.familyNotFound task_definition_family), [c1], s1)
            | latest :: _ =>
              let c2 : EcsCall := .describe_task_definition latest
              match client.describe_task_definition latest s1 with
              | (.error e, s2) => (.error (.describeFailed e), [c1, c2], s2)
              | (.ok td, s2) =>
                let p := deriveRegisterParams pushed td
                let c3 : EcsCall := .register_task_definition p
                match client.register_task_definition p s2 with
                | (.error e, s3) => (.error (.registerFailed e), [c1, c2, c3], s3)
                | (.ok new_arn, s3) =>
                  let c4 : EcsCall := .update_service cluster service new_arn
                  match client.update_service cluster service new_arn s3 with
                  | (.error e, s4) => (.error (.updateFailed e), [c1, c2, c3, c4], s4)
                  | (.ok _, s4) =>
                    (.ok ("Service " ++ service ++ " updated to use task definition "
                        ++ new_arn), [c1, c2, c3, c4], s4)

/-- The `register_task_definition` calls occurring in a trace, in order. -/
def registerCalls (tr : List EcsCall) : List RegisterParams :=
  tr.filterMap fun c =>
    match c with
    | .register_task_definition p => some p
    | _ => none

/-- The `update_service` calls occurring in a trace, in order, as
(cluster, service, task definition ARN) triples. -/
def updateServiceCalls (tr : List EcsCall) : List (String × String × String) :=
  tr.filterMap fun c =>
    match c with
    | .update_service cl sv arn => some (cl, sv, arn)
    | _ => none

/-- A memoryless ECS collaborator answering every operation with a fixed
response, used to instantiate the general theorems at concrete inputs. -/
def constClient (l : Except String (List String)) (d : Except String TaskDefinition)
    (r : Except String String) (u : Except String Unit) : EcsClient Unit :=
  { list_task_definitions := fun _ _ _ s => (l, s)
    describe_task_definition := fun _ s => (d, s)
    register_task_definition := fun _ s => (r, s)
    update_service := fun _ _ _ s => (u, s) }

/-- A memoryless ECS collaborator on which every operation succeeds. -/
def okClient (arns : List String) (td : TaskDefinition) (arn : String) : EcsClient Unit :=
  constClient (.ok arns) (.ok td) (.ok arn) (.ok ())

/-- The task definition body of the spec's scenario: family web-task, an app
container with an image and a sidecar container without one. -/
def sampleTd : TaskDefinition :=
  { family := "web-task"
    containerDefinitions :=
      [{ image := some "old:1.0", rest := [("name", "app")] },
       { image := none, rest := [("name", "sidecar")] }] }

/-- A task definition body none of whose containers declares an image. -/
def noImageTd : TaskDefinition :=
  { family := "worker-task"
    containerDefinitions :=
      [{ image := none, rest := [("name", "sidecar")] },
       { image := none, rest := [("name", "logger")] }] }

/-- Modelled from the spec: the familyPrefix parameter of ListTaskDefinitions
selects the task definitions of every family that extends the given string as
a prefix (spec section 6; the Python code only supplies the argument). -/
def familyMatches (pfx fam : String) : Bool :=
  pfx.data.isPrefixOf fam.data

/-- Modelled from the spec: the ARN the orchestration service assigns to the
n-th revision it registers (revisions are append-only, immutable, numbered;
spec sections 3 and 6 — the service itself is an external collaborator whose
code is not in the repository). -/
def mkArn (n : Nat) : String :=
  "arn:aws:ecs:task-definition/" ++ Nat.repr n

/-- Modelled from the spec: the revision body DescribeTaskDefinition returns
for a stored registration (every registered field is present in the body). -/
def tdOfRegistered (p : RegisterParams) : TaskDefinition :=
  { family := p.family
    containerDefinitions := p.containerDefinitions
    volumes := some p.volumes
    taskRoleArn := p.taskRoleArn
    executionRoleArn := p.executionRoleArn
    networkMode := p.networkMode
    requiresCompatibilities := some p.requiresCompatibilities
    cpu := p.cpu
    memory := p.memory }

/-- Modelled from the spec: the orchestration service's state — registered
revisions newest first (append-only), a counter for fresh ARNs, and the
revision each (cluster, service) pair was last pointed at. -/
structure EcsServer where
  revisions : List (String × RegisterParams)
  counter : Nat
  services : List ((String × String) × String)
  deriving Repr, DecidableEq

/-- Modelled from the spec: the orchestration service of spec section 6 as an
`EcsClient` over `EcsServer`: ListTaskDefinitions returns the ARNs of the
matching families' revisions, most recent first, truncated to maxResults;
DescribeTaskDefinition resolves an ARN to the stored body;
RegisterTaskDefinition appends a new immutable revision under a fresh ARN
(no deduplication); UpdateService repoints the service. -/
def serverClient : EcsClient EcsServer :=
  { list_task_definitions := fun famPfx _sort maxResults s =>
      (.ok (((s.revisions.filter fun e => familyMatches famPfx e.2.family).map
        (·.1)).take maxResults), s)
    describe_task_definition := fun arn s =>
      match s.revisions.find? (fun e => decide (e.1 = arn)) with
      | some e => (.ok (tdOfRegistered e.2), s)
      | none => (.error ("Unable to describe task definition: " ++ arn), s)
    register_task_definition := fun p s =>
      (.ok (mkArn s.counter),
       { s with revisions := (mkArn s.counter, p) :: s.revisions,
                counter := s.counter + 1 })
    update_service := fun cluster service arn s =>
      (.ok (), { s with services := ((cluster, service), arn) :: s.services }) }

/-- A stored revision whose family extends the requested family name
web-task as a strict prefix. -/
def pfxEntry : String × RegisterParams :=
  ("arn:aws:ecs:task-definition/9",
   { family := "web-task-v2"
     containerDefinitions := [{ image := some "old:1.0", rest := [("name", "app")] }]
     volumes := []
     taskRoleArn := none
     executionRoleArn := none
     networkMode := none
     requiresCompatibilities := []
     cpu := none
     memory := none })

/-- An orchestration-service state whose only revision belongs to family
web-task-v2, which merely shares the prefix web-task. -/
def prefixServer : EcsServer :=
  { revisions := [pfxEntry]
    counter := 10
    services := [] }

/-- Run of `deploy` on an empty family: the list response is `[]`. -/
theorem deploy_run_list_empty {σ : Type} {client : EcsClient σ}
    {ref ak sk st cluster region service fam : String} {img : Option String} {s s1 : σ}
    (h1 : client.list_task_definitions fam "DESC" 1 s = (.ok [], s1)) :
    deploy client (.ok ref) (.ok ak) (.ok sk) (.ok st) cluster region service fam img s =
      (.error (.familyNotFound fam), [.list_task_definitions fam "DESC" 1], s1) := by
  simp [deploy, h1]

/-- Run of `deploy` in which the registration is rejected. -/
theorem deploy_run_register_error {σ : Type} {client : EcsClient σ}
    {ref ak sk st cluster region service fam latest msg : String} {img : Option String}
    {rest : List String} {td : TaskDefinition} {s s1 s2 s3 : σ}
    (h1 : client.list_task_definitions fam "DESC" 1 s = (.ok (latest :: rest), s1))
    (h2 : client.describe_task_definition latest s1 = (.ok td, s2))
    (h3 : client.register_task_definition (deriveRegisterParams ref td) s2 =
      (.error msg, s3)) :
    deploy client (.ok ref) (.ok ak) (.ok sk) (.ok st) cluster region service fam img s =
      (.error (.registerFailed msg),
       [.list_task_definitions fam "DESC" 1, .describe_task_definition latest,
        .register_task_definition (deriveRegisterParams ref td)], s3) := by
  simp [deploy, h1, h2, h3]

/-- Run of `deploy` in which the service update is rejected. -/
theorem deploy_run_update_error {σ : Type} {client : EcsClient σ}
    {ref ak sk st cluster region service fam latest arn msg : String} {img : Option String}
    {rest : List String} {td : TaskDefinition} {s s1 s2 s3 s4 : σ}
    (h1 : client.list_task_definitions fam "DESC" 1 s = (.ok (latest :: rest), s1))
    (h2 : client.describe_task_definition latest s1 = (.ok td, s2))
    (h3 : client.register_task_definition (deriveRegisterParams ref td) s2 = (.ok arn, s3))
    (h4 : client.update_service cluster service arn s3 = (.error msg, s4)) :
    deploy client (.ok ref) (.ok ak) (.ok sk) (.ok st) cluster region service fam img s =
      (.error (.updateFailed msg),
       [.list_task_definitions fam "DESC" 1, .describe_task_definition latest,
        .register_task_definition (deriveRegisterParams ref td),
        .update_service cluster service arn], s4) := by
  simp [deploy, h1, h2, h3, h4]

/-- Run of `deploy` in which every ECS call succeeds. -/
theorem deploy_run_success {σ : Type} {client : EcsClient σ}
    {ref ak sk st cluster region service fam latest arn : String} {img : Option String}
    {rest : List String} {td : TaskDefinition} {s s1 s2 s3 s4 : σ}
    (h1 : client.list_task_definitions fam "DESC" 1 s = (.ok (latest :: rest), s1))
    (h2 : client.describe_task_definition latest s1 = (.ok td, s2))
    (h3 : client.register_task_definition (deriveRegisterParams ref td) s2 = (.ok arn, s3))
    (h4 : client.update_service cluster service arn s3 = (.ok (), s4)) :
    deploy client (.ok ref) (.ok ak) (.ok sk) (.ok st) cluster region service fam img s =
      (.ok ("Service " ++ service ++ " updated to use task definition " ++ arn),
       [.list_task_definitions fam "DESC" 1, .describe_task_definition latest,
        .register_task_definition (deriveRegisterParams ref td),
        .update_service cluster service arn], s4) := by
  simp [deploy, h1, h2, h3, h4]

/-- Whatever the register and update responses are, once list and describe have
answered, the trace of a deploy run contains exactly one
`register_task_definition` call, carrying the derived parameters. -/
theorem registerCalls_of_deploy {σ : Type} {client : EcsClient σ}
    {ref ak sk st cluster region service fam latest : String} {img : Option String}
    {rest : List String} {td : TaskDefinition} {s s1 s2 : σ}
    (h1 : client.list_task_definitions fam "DESC" 1 s = (.ok (latest :: rest), s1))
    (h2 : client.describe_task_definition latest s1 = (.ok td, s2)) :
    registerCalls (deploy client (.ok ref) (.ok ak) (.ok sk) (.ok st)
        cluster region service fam img s).2.1 = [deriveRegisterParams ref td] := by
  rcases h3 : client.register_task_definition (deriveRegisterParams ref td) s2 with
    ⟨msg | arn, s3⟩
  · rw [deploy_run_register_error h1 h2 h3]
    rfl
  · rcases h4 : client.update_service cluster service arn s3 with ⟨msg | u, s4⟩
    · rw [deploy_run_update_error h1 h2 h3 h4]
      rfl
    · cases u
      rw [deploy_run_success h1 h2 h3 h4]
      rfl

/-- Pointwise description of the image-rewriting loop: a container definition
without an image is returned unchanged, one with an image gets exactly its
image field overwritten. -/
theorem updateImages_spec (ref : String) (cs : List ContainerDef) :
    List.Forall₂ (fun ctr new =>
      (ctr.image = none → new = ctr) ∧
      (ctr.image.isSome → new = { ctr with image := some ref }))
      cs (updateImages ref cs) := by
  induction cs with
  | nil => exact List.Forall₂.nil
  | cons c t ih =>
      refine List.Forall₂.cons ⟨?_, ?_⟩ ih
      · intro h
        simp [setImage, h]
      · intro h
        simp [setImage, h]

/-- C1: in deploy's derivation step, every container definition of the fetched
latest revision body that has an image field has it overwritten with the image
reference returned by push (`ref`, the value passed as the push outcome), and
every container definition lacking an image field is returned completely
unchanged, so no image field is introduced. -/
theorem deploy_image_substitution {σ : Type} (client : EcsClient σ)
    (ref ak sk st cluster region service fam latest : String) (img : Option String)
    (rest : List String) (td : TaskDefinition) (s s1 s2 : σ)
    (h1 : client.list_task_definitions fam "DESC" 1 s = (.ok (latest :: rest), s1))
    (h2 : client.describe_task_definition latest s1 = (.ok td, s2)) :
    registerCalls (deploy client (.ok ref) (.ok ak) (.ok sk) (.ok st)
        cluster region service fam img s).2.1 = [deriveRegisterParams ref td] ∧
    List.Forall₂ (fun ctr new =>
      (ctr.image = none → new = ctr) ∧
      (ctr.image.isSome → new = { ctr with image := some ref }))
      td.containerDefinitions (deriveRegisterParams ref td).containerDefinitions :=
  ⟨registerCalls_of_deploy h1 h2, updateImages_spec ref td.containerDefinitions⟩

/-- Witness for C1 at the spec's scenario inputs. -/
theorem deploy_image_substitution_witness :
    registerCalls (deploy
        (okClient ["arn:aws:ecs:task-definition/web-task:3"] sampleTd
          "arn:aws:ecs:task-definition/web-task:4")
        (.ok "registry/app:sha123") (.ok "AKIA") (.ok "SECRET") (.ok "TOKEN")
        "demo-cluster" "us-east-1" "web-svc" "web-task" none ()).2.1 =
      [deriveRegisterParams "registry/app:sha123" sampleTd] ∧
    List.Forall₂ (fun ctr new =>
      (ctr.image = none → new = ctr) ∧
      (ctr.image.isSome → new = { ctr with image := some "registry/app:sha123" }))
      sampleTd.containerDefinitions
      (deriveRegisterParams "registry/app:sha123" sampleTd).containerDefinitions :=
  deploy_image_substitution
    (okClient ["arn:aws:ecs:task-definition/web-task:3"] sampleTd
      "arn:aws:ecs:task-definition/web-task:4")
    "registry/app:sha123" "AKIA" "SECRET" "TOKEN" "demo-cluster" "us-east-1" "web-svc"
    "web-task" "arn:aws:ecs:task-definition/web-task:3" none [] sampleTd () () ()
    rfl rfl

/-- C2: the register call built by deploy copies every non-image top-level
field verbatim from the fetched body, with absent optional fields defaulting
as the Python `.get` calls do (empty list for volumes and compatibilities,
unset for the role ARNs, network mode, cpu and memory); the call is issued
whatever the optional fields are, so absence raises no error. -/
theorem deploy_preserves_fields {σ : Type} (client : EcsClient σ)
    (ref ak sk st cluster region service fam latest : String) (img : Option String)
    (rest : List String) (td : TaskDefinition) (s s1 s2 : σ)
    (h1 : client.list_task_definitions fam "DESC" 1 s = (.ok (latest :: rest), s1))
    (h2 : client.describe_task_definition latest s1 = (.ok td, s2)) :
    registerCalls (deploy client (.ok ref) (.ok ak) (.ok sk) (.ok st)
        cluster region service fam img s).2.1 = [deriveRegisterParams ref td] ∧
    (deriveRegisterParams ref td).family = td.family ∧
    (deriveRegisterParams ref td).volumes = td.volumes.getD [] ∧
    (deriveRegisterParams ref td).taskRoleArn = td.taskRoleArn ∧
    (deriveRegisterParams ref td).executionRoleArn = td.executionRoleArn ∧
    (deriveRegisterParams ref td).networkMode = td.networkMode ∧
    (deriveRegisterParams ref td).requiresCompatibilities =
      td.requiresCompatibilities.getD [] ∧
    (deriveRegisterParams ref td).cpu = td.cpu ∧
    (deriveRegisterParams ref td).memory = td.memory :=
  ⟨registerCalls_of_deploy h1 h2, rfl, rfl, rfl, rfl, rfl, rfl, rfl, rfl⟩

/-- Witness for C2 on a body whose optional fields are all absent. -/
theorem deploy_preserves_fields_witness :
    registerCalls (deploy
        (okClient ["arn:aws:ecs:task-definition/web-task:3"] sampleTd
          "arn:aws:ecs:task-definition/web-task:4")
        (.ok "registry/app:sha123") (.ok "AKIA") (.ok "SECRET") (.ok "TOKEN")
        "demo-cluster" "us-east-1" "web-svc" "web-task" (some "ignored") ()).2.1 =
      [deriveRegisterParams "registry/app:sha123" sampleTd] ∧
    (deriveRegisterParams "registry/app:sha123" sampleTd).family = sampleTd.family ∧
    (deriveRegisterParams "registry/app:sha123" sampleTd).volumes =
      sampleTd.volumes.getD [] ∧
    (deriveRegisterParams "registry/app:sha123" sampleTd).taskRoleArn =
      sampleTd.taskRoleArn ∧
    (deriveRegisterParams "registry/app:sha123" sampleTd).executionRoleArn =
      sampleTd.executionRoleArn ∧
    (deriveRegisterParams "registry/app:sha123" sampleTd).networkMode =
      sampleTd.networkMode ∧
    (deriveRegisterParams "registry/app:sha123" sampleTd).requiresCompatibilities =
      sampleTd.requiresCompatibilities.getD [] ∧
    (deriveRegisterParams "registry/app:sha123" sampleTd).cpu = sampleTd.cpu ∧
    (deriveRegisterParams "registry/app:sha123" sampleTd).memory = sampleTd.memory :=
  deploy_preserves_fields
    (okClient ["arn:aws:ecs:task-definition/web-task:3"] sampleTd
      "arn:aws:ecs:task-definition/web-task:4")
    "registry/app:sha123" "AKIA" "SECRET" "TOKEN" "demo-cluster" "us-east-1" "web-svc"
    "web-task" "arn:aws:ecs:task-definition/web-task:3" (some "ignored") [] sampleTd
    () () () rfl rfl

/-- C3: when the family lookup returns no task definition ARN, deploy fails
with the family-not-found error and the trace contains no
`register_task_definition` and no `update_service` call. -/
theorem deploy_family_not_found {σ : Type} (client : EcsClient σ)
    (ref ak sk st cluster region service fam : String) (img : Option String) (s s1 : σ)
    (h1 : client.list_task_definitions fam "DESC" 1 s = (.ok [], s1)) :
    (deploy client (.ok ref) (.ok ak) (.ok sk) (.ok st)
        cluster region service fam img s).1 = .error (.familyNotFound fam) ∧
    registerCalls (deploy client (.ok ref) (.ok ak) (.ok sk) (.ok st)
        cluster region service fam img s).2.1 = [] ∧
    updateServiceCalls (deploy client (.ok ref) (.ok ak) (.ok sk) (.ok st)
        cluster region service fam img s).2.1 = [] := by
  rw [deploy_run_list_empty h1]
  exact ⟨rfl, rfl, rfl⟩

/-- Witness for C3 on a family without revisions. -/
theorem deploy_family_not_found_witness :
    (deploy (constClient (.ok []) (.ok sampleTd) (.ok "unused-arn") (.ok ()))
        (.ok "registry/app:sha123") (.ok "AKIA") (.ok "SECRET") (.ok "TOKEN")
        "demo-cluster" "us-east-1" "web-svc" "missing-family" none ()).1 =
      .error (.familyNotFound "missing-family") ∧
    registerCalls (deploy (constClient (.ok []) (.ok sampleTd) (.ok "unused-arn") (.ok ()))
        (.ok "registry/app:sha123") (.ok "AKIA") (.ok "SECRET") (.ok "TOKEN")
        "demo-cluster" "us-east-1" "web-svc" "missing-family" none ()).2.1 = [] ∧
    updateServiceCalls
      (deploy (constClient (.ok []) (.ok sampleTd) (.ok "unused-arn") (.ok ()))
        (.ok "registry/app:sha123") (.ok "AKIA") (.ok "SECRET") (.ok "TOKEN")
        "demo-cluster" "us-east-1" "web-svc" "missing-family" none ()).2.1 = [] :=
  deploy_family_not_found (constClient (.ok []) (.ok sampleTd) (.ok "unused-arn") (.ok ()))
    "registry/app:sha123" "AKIA" "SECRET" "TOKEN" "demo-cluster" "us-east-1" "web-svc"
    "missing-family" none () () rfl

/-- C4: if `register_task_definition` answers with an error, deploy raises
that error tagged as a registration failure, carrying the underlying message,
and the trace contains no `update_service` call. -/
theorem deploy_register_failure_no_update {σ : Type} (client : EcsClient σ)
    (ref ak sk st cluster region service fam latest msg : String) (img : Option String)
    (rest : List String) (td : TaskDefinition) (s s1 s2 s3 : σ)
    (h1 : client.list_task_definitions fam "DESC" 1 s = (.ok (latest :: rest), s1))
    (h2 : client.describe_task_definition latest s1 = (.ok td, s2))
    (h3 : client.register_task_definition (deriveRegisterParams ref td) s2 =
      (.error msg, s3)) :
    (deploy client (.ok ref) (.ok ak) (.ok sk) (.ok st)
        cluster region service fam img s).1 = .error (.registerFailed msg) ∧
    updateServiceCalls (deploy client (.ok ref) (.ok ak) (.ok sk) (.ok st)
        cluster region service fam img s).2.1 = [] := by
  rw [deploy_run_register_error h1 h2 h3]
  exact ⟨rfl, rfl⟩

/-- Witness for C4 with a simulated registration rejection. -/
theorem deploy_register_failure_no_update_witness :
    (deploy (constClient (.ok ["arn:aws:ecs:task-definition/web-task:3"]) (.ok sampleTd)
        (.error "AccessDeniedException") (.ok ()))
        (.ok "registry/app:sha123") (.ok "AKIA") (.ok "SECRET") (.ok "TOKEN")
        "demo-cluster" "us-east-1" "web-svc" "web-task" none ()).1 =
      .error (.registerFailed "AccessDeniedException") ∧
    updateServiceCalls
      (deploy (constClient (.ok ["arn:aws:ecs:task-definition/web-task:3"]) (.ok sampleTd)
        (.error "AccessDeniedException") (.ok ()))
        (.ok "registry/app:sha123") (.ok "AKIA") (.ok "SECRET") (.ok "TOKEN")
        "demo-cluster" "us-east-1" "web-svc" "web-task" none ()).2.1 = [] :=
  deploy_register_failure_no_update
    (constClient (.ok ["arn:aws:ecs:task-definition/web-task:3"]) (.ok sampleTd)
      (.error "AccessDeniedException") (.ok ()))
    "registry/app:sha123" "AKIA" "SECRET" "TOKEN" "demo-cluster" "us-east-1" "web-svc"
    "web-task" "arn:aws:ecs:task-definition/web-task:3" "AccessDeniedException" none
    [] sampleTd () () () () rfl rfl rfl

/-- C5: the caller-supplied image argument is rebound to the push result
before it is ever read, so two deploy runs that differ only in that argument
return the same result, issue the same calls and leave the same state. -/
theorem deploy_ignores_image_argument {σ : Type} (client : EcsClient σ)
    (push_result ak sk st : Except String String)
    (cluster region service fam : String) (img1 img2 : Option String) (s : σ) :
    deploy client push_result ak sk st cluster region service fam img1 s =
      deploy client push_result ak sk st cluster region service fam img2 s := rfl

/-- C6: when the build/push step fails, deploy propagates the failure and its
trace is empty: no list, describe, register or update call is made. -/
theorem deploy_push_failure_no_calls {σ : Type} (client : EcsClient σ)
    (e : String) (ak sk st : Except String String)
    (cluster region service fam : String) (img : Option String) (s : σ) :
    deploy client (.error e) ak sk st cluster region service fam img s =
      (.error (.pushFailed e), [], s) := rfl

/-- C8: on success deploy returns exactly the confirmation string naming the
service argument and the ARN the registration returned. -/
theorem deploy_success_message {σ : Type} (client : EcsClient σ)
    (ref ak sk st cluster region service fam latest arn : String) (img : Option String)
    (rest : List String) (td : TaskDefinition) (s s1 s2 s3 s4 : σ)
    (h1 : client.list_task_definitions fam "DESC" 1 s = (.ok (latest :: rest), s1))
    (h2 : client.describe_task_definition latest s1 = (.ok td, s2))
    (h3 : client.register_task_definition (deriveRegisterParams ref td) s2 = (.ok arn, s3))
    (h4 : client.update_service cluster service arn s3 = (.ok (), s4)) :
    (deploy client (.ok ref) (.ok ak) (.ok sk) (.ok st)
        cluster region service fam img s).1 =
      .ok ("Service " ++ service ++ " updated to use task definition " ++ arn) := by
  rw [deploy_run_success h1 h2 h3 h4]

/-- Witness for C8 on a fully successful run. -/
theorem deploy_success_message_witness :
    (deploy (okClient ["arn:aws:ecs:task-definition/web-task:3"] sampleTd
        "arn:aws:ecs:task-definition/web-task:4")
        (.ok "registry/app:sha123") (.ok "AKIA") (.ok "SECRET") (.ok "TOKEN")
        "demo-cluster" "us-east-1" "web-svc" "web-task" none ()).1 =
      .ok ("Service " ++ "web-svc" ++ " updated to use task definition "
        ++ "arn:aws:ecs:task-definition/web-task:4") :=
  deploy_success_message
    (okClient ["arn:aws:ecs:task-definition/web-task:3"] sampleTd
      "arn:aws:ecs:task-definition/web-task:4")
    "registry/app:sha123" "AKIA" "SECRET" "TOKEN" "demo-cluster" "us-east-1" "web-svc"
    "web-task" "arn:aws:ecs:task-definition/web-task:3"
    "arn:aws:ecs:task-definition/web-task:4" none [] sampleTd () () () () ()
    rfl rfl rfl rfl

/-- The image-rewriting loop is the identity on a list of container
definitions none of which has an image field. -/
theorem updateImages_of_none (ref : String) :
    ∀ cs : List ContainerDef, (∀ c ∈ cs, c.image = none) → updateImages ref cs = cs := by
  intro cs
  induction cs with
  | nil => intro _; rfl
  | cons c t ih =>
      intro h
      have hc : setImage ref c = c := by
        simp [setImage, h c (List.mem_cons_self c t)]
      simp only [updateImages, List.map_cons, hc]
      exact congrArg (c :: ·) (ih fun x hx => h x (List.mem_cons_of_mem c hx))

/-- C10: when no container definition of the fetched body has an image field,
the substitution is a no-op, yet deploy still issues exactly one
`register_task_definition` call (with the unchanged containers) and exactly
one `update_service` call, and succeeds. -/
theorem deploy_no_image_containers {σ : Type} (client : EcsClient σ)
    (ref ak sk st cluster region service fam latest arn : String) (img : Option String)
    (rest : List String) (td : TaskDefinition) (s s1 s2 s3 s4 : σ)
    (hno : ∀ c ∈ td.containerDefinitions, c.image = none)
    (h1 : client.list_task_definitions fam "DESC" 1 s = (.ok (latest :: rest), s1))
    (h2 : client.describe_task_definition latest s1 = (.ok td, s2))
    (h3 : client.register_task_definition (deriveRegisterParams ref td) s2 = (.ok arn, s3))
    (h4 : client.update_service cluster service arn s3 = (.ok (), s4)) :
    (deploy client (.ok ref) (.ok ak) (.ok sk) (.ok st)
        cluster region service fam img s).1 =
      .ok ("Service " ++ service ++ " updated to use task definition " ++ arn) ∧
    registerCalls (deploy client (.ok ref) (.ok ak) (.ok sk) (.ok st)
        cluster region service fam img s).2.1 = [deriveRegisterParams ref td] ∧
    (deriveRegisterParams ref td).containerDefinitions = td.containerDefinitions ∧
    updateServiceCalls (deploy client (.ok ref) (.ok ak) (.ok sk) (.ok st)
        cluster region service fam img s).2.1 = [(cluster, service, arn)] := by
  rw [deploy_run_success h1 h2 h3 h4]
  exact ⟨rfl, rfl, updateImages_of_none ref td.containerDefinitions hno, rfl⟩

/-- Witness for C10 on a body whose containers all lack an image field. -/
theorem deploy_no_image_containers_witness :
    (deploy (okClient ["arn:aws:ecs:task-definition/worker-task:7"] noImageTd
        "arn:aws:ecs:task-definition/worker-task:8")
        (.ok "registry/app:sha123") (.ok "AKIA") (.ok "SECRET") (.ok "TOKEN")
        "demo-cluster" "us-east-1" "worker-svc" "worker-task" none ()).1 =
      .ok ("Service " ++ "worker-svc" ++ " updated to use task definition "
        ++ "arn:aws:ecs:task-definition/worker-task:8") ∧
    registerCalls (deploy (okClient ["arn:aws:ecs:task-definition/worker-task:7"] noImageTd
        "arn:aws:ecs:task-definition/worker-task:8")
        (.ok "registry/app:sha123") (.ok "AKIA") (.ok "SECRET") (.ok "TOKEN")
        "demo-cluster" "us-east-1" "worker-svc" "worker-task" none ()).2.1 =
      [deriveRegisterParams "registry/app:sha123" noImageTd] ∧
    (deriveRegisterParams "registry/app:sha123" noImageTd).containerDefinitions =
      noImageTd.containerDefinitions ∧
    updateServiceCalls
      (deploy (okClient ["arn:aws:ecs:task-definition/worker-task:7"] noImageTd
        "arn:aws:ecs:task-definition/worker-task:8")
        (.ok "registry/app:sha123") (.ok "AKIA") (.ok "SECRET") (.ok "TOKEN")
        "demo-cluster" "us-east-1" "worker-svc" "worker-task" none ()).2.1 =
      [("demo-cluster", "worker-svc", "arn:aws:ecs:task-definition/worker-task:8")] :=
  deploy_no_image_containers
    (okClient ["arn:aws:ecs:task-definition/worker-task:7"] noImageTd
      "arn:aws:ecs:task-definition/worker-task:8")
    "registry/app:sha123" "AKIA" "SECRET" "TOKEN" "demo-cluster" "us-east-1" "worker-svc"
    "worker-task" "arn:aws:ecs:task-definition/worker-task:7"
    "arn:aws:ecs:task-definition/worker-task:8" none [] noImageTd () () () () ()
    (by decide) rfl rfl rfl rfl

/-- A list whose optional head is `some a` is a cons with head `a`. -/
theorem head?_eq_some_ex {α : Type} {l : List α} {a : α} (h : l.head? = some a) :
    ∃ t, l = a :: t := by
  cases l with
  | nil => exact absurd h (by simp)
  | cons x t =>
      simp only [List.head?_cons, Option.some.injEq] at h
      exact ⟨t, by rw [h]⟩

/-- C9: against the modelled orchestration service, the family under which
deploy registers the new revision is the family of the fetched latest
revision's body — not the caller-supplied family argument, which the lookup
uses only as a family prefix; the fetched family is constrained only to
extend the argument as a prefix, so the two can differ. -/
theorem deploy_registers_fetched_family
    (ref ak sk st cluster region service fam : String) (img : Option String)
    (s0 : EcsServer) (e0 : String × RegisterParams)
    (h1 : (s0.revisions.filter fun e => familyMatches fam e.2.family).head? = some e0)
    (h2 : s0.revisions.find? (fun e => decide (e.1 = e0.1)) = some e0) :
    registerCalls (deploy serverClient (.ok ref) (.ok ak) (.ok sk) (.ok st)
        cluster region service fam img s0).2.1 =
      [deriveRegisterParams ref (tdOfRegistered e0.2)] ∧
    (deriveRegisterParams ref (tdOfRegistered e0.2)).family = e0.2.family ∧
    familyMatches fam e0.2.family = true := by
  obtain ⟨t, ht⟩ := head?_eq_some_ex h1
  have hmem : e0 ∈ s0.revisions.filter fun e => familyMatches fam e.2.family := by
    rw [ht]
    exact List.mem_cons_self e0 t
  have hlist : serverClient.list_task_definitions fam "DESC" 1 s0 = (.ok [e0.1], s0) := by
    simp [serverClient, ht]
  have hdesc : serverClient.describe_task_definition e0.1 s0 =
      (.ok (tdOfRegistered e0.2), s0) := by
    simp [serverClient, h2]
  exact ⟨registerCalls_of_deploy hlist hdesc, rfl, (List.mem_filter.mp hmem).2⟩

/-- Witness for C9: requesting family web-task registers under family
web-task-v2, a different family that only shares the prefix. -/
theorem deploy_registers_fetched_family_witness :
    (registerCalls (deploy serverClient (.ok "registry/app:sha123") (.ok "AKIA")
        (.ok "SECRET") (.ok "TOKEN") "demo-cluster" "us-east-1" "web-svc" "web-task"
        none prefixServer).2.1 =
      [deriveRegisterParams "registry/app:sha123" (tdOfRegistered pfxEntry.2)] ∧
    (deriveRegisterParams "registry/app:sha123" (tdOfRegistered pfxEntry.2)).family =
      pfxEntry.2.family ∧
    familyMatches "web-task" pfxEntry.2.family = true) ∧
    pfxEntry.2.family ≠ "web-task" :=
  ⟨deploy_registers_fetched_family "registry/app:sha123" "AKIA" "SECRET" "TOKEN"
      "demo-cluster" "us-east-1" "web-svc" "web-task" none prefixServer pfxEntry
      (by decide) (by decide),
   by decide⟩

/-- Overwriting an image twice with the same reference equals doing it once. -/
theorem setImage_idem (ref : String) (c : ContainerDef) :
    setImage ref (setImage ref c) = setImage ref c := by
  by_cases h : (c.image).isSome
  · simp [setImage, h]
  · simp [setImage, h]

/-- The image rewrite is idempotent on a list of container definitions. -/
theorem updateImages_idem (ref : String) (cs : List ContainerDef) :
    updateImages ref (updateImages ref cs) = updateImages ref cs := by
  induction cs with
  | nil => rfl
  | cons c t ih =>
      show setImage ref (setImage ref c) :: updateImages ref (updateImages ref t) =
        setImage ref c :: updateImages ref t
      rw [setImage_idem, ih]

/-- Re-deriving registration parameters from the body of a revision that was
itself derived with the same image reference changes nothing. -/
theorem deriveRegisterParams_register_again (ref : String) (td : TaskDefinition) :
    deriveRegisterParams ref (tdOfRegistered (deriveRegisterParams ref td)) =
      deriveRegisterParams ref td := by
  simp only [deriveRegisterParams, tdOfRegistered, Option.getD_some, updateImages_idem]

/-- Every container produced by the image rewrite either has no image or
carries exactly the substituted reference. -/
theorem updateImages_mem (ref : String) (cs : List ContainerDef) :
    ∀ c ∈ updateImages ref cs, c.image = none ∨ c.image = some ref := by
  intro c hc
  obtain ⟨a, ha, rfl⟩ := List.mem_map.mp hc
  by_cases h : (a.image).isSome
  · right
    simp [setImage, h]
  · left
    have hnone : a.image = none := Option.not_isSome_iff_eq_none.mp h
    simp [setImage, hnone]

/-- C7: two deploy runs against the modelled orchestration service with the
same push output issue one registration each (no deduplication), append two
distinct new revisions with identical bodies, and point the service first at
the one, then at the other; every image the registered body carries equals
the pushed reference, so the observable end state of the service is stable. -/
theorem deploy_twice_stable
    (ref ak sk st cluster region service fam : String) (img : Option String)
    (s0 : EcsServer) (e0 : String × RegisterParams)
    (h1 : (s0.revisions.filter fun e => familyMatches fam e.2.family).head? = some e0)
    (h2 : s0.revisions.find? (fun e => decide (e.1 = e0.1)) = some e0)
    (h3 : mkArn s0.counter ≠ mkArn (s0.counter + 1)) :
    registerCalls (deploy serverClient (.ok ref) (.ok ak) (.ok sk) (.ok st)
        cluster region service fam img s0).2.1 =
      [deriveRegisterParams ref (tdOfRegistered e0.2)] ∧
    updateServiceCalls (deploy serverClient (.ok ref) (.ok ak) (.ok sk) (.ok st)
        cluster region service fam img s0).2.1 =
      [(cluster, service, mkArn s0.counter)] ∧
    registerCalls (deploy serverClient (.ok ref) (.ok ak) (.ok sk) (.ok st)
        cluster region service fam img
        ((deploy serverClient (.ok ref) (.ok ak) (.ok sk) (.ok st)
          cluster region service fam img s0).2.2)).2.1 =
      [deriveRegisterParams ref (tdOfRegistered e0.2)] ∧
    updateServiceCalls (deploy serverClient (.ok ref) (.ok ak) (.ok sk) (.ok st)
        cluster region service fam img
        ((deploy serverClient (.ok ref) (.ok ak) (.ok sk) (.ok st)
          cluster region service fam img s0).2.2)).2.1 =
      [(cluster, service, mkArn (s0.counter + 1))] ∧
    (deploy serverClient (.ok ref) (.ok ak) (.ok sk) (.ok st)
        cluster region service fam img
        ((deploy serverClient (.ok ref) (.ok ak) (.ok sk) (.ok st)
          cluster region service fam img s0).2.2)).2.2.revisions =
      (mkArn (s0.counter + 1), deriveRegisterParams ref (tdOfRegistered e0.2)) ::
        (mkArn s0.counter, deriveRegisterParams ref (tdOfRegistered e0.2)) ::
        s0.revisions ∧
    mkArn s0.counter ≠ mkArn (s0.counter + 1) ∧
    (∀ c ∈ (deriveRegisterParams ref (tdOfRegistered e0.2)).containerDefinitions,
      c.image = none ∨ c.image = some ref) := by
  obtain ⟨t, ht⟩ := head?_eq_some_ex h1
  have hmem : e0 ∈ s0.revisions.filter fun e => familyMatches fam e.2.family := by
    rw [ht]
    exact List.mem_cons_self e0 t
  have hstart : familyMatches fam e0.2.family = true := (List.mem_filter.mp hmem).2
  have hlist1 : serverClient.list_task_definitions fam "DESC" 1 s0 = (.ok [e0.1], s0) := by
    simp [serverClient, ht]
  have hdesc1 : serverClient.describe_task_definition e0.1 s0 =
      (.ok (tdOfRegistered e0.2), s0) := by
    simp [serverClient, h2]
  have hreg1 : serverClient.register_task_definition
      (deriveRegisterParams ref (tdOfRegistered e0.2)) s0 =
      (.ok (mkArn s0.counter),
       ⟨(mkArn s0.counter, deriveRegisterParams ref (tdOfRegistered e0.2)) :: s0.revisions,
        s0.counter + 1, s0.services⟩) := rfl
  have hupd1 : serverClient.update_service cluster service (mkArn s0.counter)
      ⟨(mkArn s0.counter, deriveRegisterParams ref (tdOfRegistered e0.2)) :: s0.revisions,
       s0.counter + 1, s0.services⟩ =
      (.ok (),
       ⟨(mkArn s0.counter, deriveRegisterParams ref (tdOfRegistered e0.2)) :: s0.revisions,
        s0.counter + 1, ((cluster, service), mkArn s0.counter) :: s0.services⟩) := rfl
  have hrun1 : deploy serverClient (.ok ref) (.ok ak) (.ok sk) (.ok st)
      cluster region service fam img s0 =
      (.ok ("Service " ++ service ++ " updated to use task definition "
          ++ mkArn s0.counter),
       [.list_task_definitions fam "DESC" 1, .describe_task_definition e0.1,
        .register_task_definition (deriveRegisterParams ref (tdOfRegistered e0.2)),
        .update_service cluster service (mkArn s0.counter)],
       ⟨(mkArn s0.counter, deriveRegisterParams ref (tdOfRegistered e0.2)) :: s0.revisions,
        s0.counter + 1, ((cluster, service), mkArn s0.counter) :: s0.services⟩) :=
    deploy_run_success hlist1 hdesc1 hreg1 hupd1
  have hpred : familyMatches fam
      (deriveRegisterParams ref (tdOfRegistered e0.2)).family = true := hstart
  have hlist2 : serverClient.list_task_definitions fam "DESC" 1
      ⟨(mkArn s0.counter, deriveRegisterParams ref (tdOfRegistered e0.2)) :: s0.revisions,
       s0.counter + 1, ((cluster, service), mkArn s0.counter) :: s0.services⟩ =
      (.ok [mkArn s0.counter],
       ⟨(mkArn s0.counter, deriveRegisterParams ref (tdOfRegistered e0.2)) :: s0.revisions,
        s0.counter + 1, ((cluster, service), mkArn s0.counter) :: s0.services⟩) := by
    simp [serverClient, List.filter_cons, hpred]
  have hdesc2 : serverClient.describe_task_definition (mkArn s0.counter)
      ⟨(mkArn s0.counter, deriveRegisterParams ref (tdOfRegistered e0.2)) :: s0.revisions,
       s0.counter + 1, ((cluster, service), mkArn s0.counter) :: s0.services⟩ =
      (.ok (tdOfRegistered (deriveRegisterParams ref (tdOfRegistered e0.2))),
       ⟨(mkArn s0.counter, deriveRegisterParams ref (tdOfRegistered e0.2)) :: s0.revisions,
        s0.counter + 1, ((cluster, service), mkArn s0.counter) :: s0.services⟩) := by
    simp [serverClient]
  have hreg2 : serverClient.register_task_definition
      (deriveRegisterParams ref (tdOfRegistered
        (deriveRegisterParams ref (tdOfRegistered e0.2))))
      ⟨(mkArn s0.counter, deriveRegisterParams ref (tdOfRegistered e0.2)) :: s0.revisions,
       s0.counter + 1, ((cluster, service), mkArn s0.counter) :: s0.services⟩ =
      (.ok (mkArn (s0.counter + 1)),
       ⟨(mkArn (s0.counter + 1), deriveRegisterParams ref (tdOfRegistered e0.2)) ::
          (mkArn s0.counter, deriveRegisterParams ref (tdOfRegistered e0.2)) :: s0.revisions,
        s0.counter + 1 + 1, ((cluster, service), mkArn s0.counter) :: s0.services⟩) := by
    rw [deriveRegisterParams_register_again]
    rfl
  have hupd2 : serverClient.update_service cluster service (mkArn (s0.counter + 1))
      ⟨(mkArn (s0.counter + 1), deriveRegisterParams ref (tdOfRegistered e0.2)) ::
         (mkArn s0.counter, deriveRegisterParams ref (tdOfRegistered e0.2)) :: s0.revisions,
       s0.counter + 1 + 1, ((cluster, service), mkArn s0.counter) :: s0.services⟩ =
      (.ok (),
       ⟨(mkArn (s0.counter + 1), deriveRegisterParams ref (tdOfRegistered e0.2)) ::
          (mkArn s0.counter, deriveRegisterParams ref (tdOfRegistered e0.2)) :: s0.revisions,
        s0.counter + 1 + 1,
        ((cluster, service), mkArn (s0.counter + 1)) ::
          ((cluster, service), mkArn s0.counter) :: s0.services⟩) := rfl
  have hrun2' : deploy serverClient (.ok ref) (.ok ak) (.ok sk) (.ok st)
      cluster region service fam img
      ((deploy serverClient (.ok ref) (.ok ak) (.ok sk) (.ok st)
        cluster region service fam img s0).2.2) =
      (.ok ("Service " ++ service ++ " updated to use task definition "
          ++ mkArn (s0.counter + 1)),
       [.list_task_definitions fam "DESC" 1, .describe_task_definition (mkArn s0.counter),
        .register_task_definition (deriveRegisterParams ref (tdOfRegistered
          (deriveRegisterParams ref (tdOfRegistered e0.2)))),
        .update_service cluster service (mkArn (s0.counter + 1))],
       ⟨(mkArn (s0.counter + 1), deriveRegisterParams ref (tdOfRegistered e0.2)) ::
          (mkArn s0.counter, deriveRegisterParams ref (tdOfRegistered e0.2)) :: s0.revisions,
        s0.counter + 1 + 1,
        ((cluster, service), mkArn (s0.counter + 1)) ::
          ((cluster, service), mkArn s0.counter) :: s0.services⟩) := by
    rw [hrun1]
    exact deploy_run_success hlist2 hdesc2 hreg2 hupd2
  refine ⟨?_, ?_, ?_, ?_, ?_, h3, ?_⟩
  · rw [hrun1]
    rfl
  · rw [hrun1]
    rfl
  · rw [hrun2']
    simp [registerCalls, deriveRegisterParams_register_again]
  · rw [hrun2']
    rfl
  · rw [hrun2']
  · exact updateImages_mem ref (tdOfRegistered e0.2).containerDefinitions

/-- Witness for C7: two deploys on the concrete one-revision server. -/
theorem deploy_twice_stable_witness :
    registerCalls (deploy serverClient (.ok "registry/app:sha123") (.ok "AKIA")
        (.ok "SECRET") (.ok "TOKEN") "demo-cluster" "us-east-1" "web-svc" "web-task"
        none prefixServer).2.1 =
      [deriveRegisterParams "registry/app:sha123" (tdOfRegistered pfxEntry.2)] ∧
    updateServiceCalls (deploy serverClient (.ok "registry/app:sha123") (.ok "AKIA")
        (.ok "SECRET") (.ok "TOKEN") "demo-cluster" "us-east-1" "web-svc" "web-task"
        none prefixServer).2.1 =
      [("demo-cluster", "web-svc", mkArn prefixServer.counter)] ∧
    registerCalls (deploy serverClient (.ok "registry/app:sha123") (.ok "AKIA")
        (.ok "SECRET") (.ok "TOKEN") "demo-cluster" "us-east-1" "web-svc" "web-task"
        none
        ((deploy serverClient (.ok "registry/app:sha123") (.ok "AKIA") (.ok "SECRET")
          (.ok "TOKEN") "demo-cluster" "us-east-1" "web-svc" "web-task"
          none prefixServer).2.2)).2.1 =
      [deriveRegisterParams "registry/app:sha123" (tdOfRegistered pfxEntry.2)] ∧
    updateServiceCalls (deploy serverClient (.ok "registry/app:sha123") (.ok "AKIA")
        (.ok "SECRET") (.ok "TOKEN") "demo-cluster" "us-east-1" "web-svc" "web-task"
        none
        ((deploy serverClient (.ok "registry/app:sha123") (.ok "AKIA") (.ok "SECRET")
          (.ok "TOKEN") "demo-cluster" "us-east-1" "web-svc" "web-task"
          none prefixServer).2.2)).2.1 =
      [("demo-cluster", "web-svc", mkArn (prefixServer.counter + 1))] ∧
    (deploy serverClient (.ok "registry/app:sha123") (.ok "AKIA") (.ok "SECRET")
        (.ok "TOKEN") "demo-cluster" "us-east-1" "web-svc" "web-task"
        none
        ((deploy serverClient (.ok "registry/app:sha123") (.ok "AKIA") (.ok "SECRET")
          (.ok "TOKEN") "demo-cluster" "us-east-1" "web-svc" "web-task"
          none prefixServer).2.2)).2.2.revisions =
      (mkArn (prefixServer.counter + 1),
        deriveRegisterParams "registry/app:sha123" (tdOfRegistered pfxEntry.2)) ::
        (mkArn prefixServer.counter,
          deriveRegisterParams "registry/app:sha123" (tdOfRegistered pfxEntry.2)) ::
        prefixServer.revisions ∧
    mkArn prefixServer.counter ≠ mkArn (prefixServer.counter + 1) ∧
    (∀ c ∈ (deriveRegisterParams "registry/app:sha123"
        (tdOfRegistered pfxEntry.2)).containerDefinitions,
      c.image = none ∨ c.image = some "registry/app:sha123") :=
  deploy_twice_stable "registry/app:sha123" "AKIA" "SECRET" "TOKEN" "demo-cluster"
    "us-east-1" "web-svc" "web-task" none prefixServer pfxEntry
    (by decide) (by decide) (by decide)
